import Mathlib

/-!
Shallow embedding of the Composable yield-optimizer core
(risk scorer, strategy executor, vault registry, orchestration loop),
translated from the Python sources:
  src/agent/risk_model.py
  src/ml-risk/risk_api.py
  src/ml-risk/anomaly_risk_model.py
  src/execution/strategy_executor_robust.py
  src/vault_manager.py
  src/main.py
Python dicts with a fixed key set are modelled as structures whose fields
are `Option`-valued where a key may be absent; float arithmetic is
modelled over `ℚ` (the code performs no precision-sensitive float work);
wall-clock timestamps are `ℕ`; chain RPC calls and the trained model are
oracles passed in as explicit parameters, with `Option`/`Except`
encoding a call that raises.
-/

/-- An entry of a Python action dict: `{action_type, parameters}`.
`none` models an absent key.  Parameter values the code reads are
strings (addresses); the mapping is an association list. -/
structure ActionDict where
  action_type : Option String
  parameters : Option (List (String × String))
deriving DecidableEq, Repr

/-- A Python strategy dict with its four possible top-level keys.
`expected_outcome` content is never read by the embedded code paths,
so presence is modelled as `Option Unit`. -/
structure StrategyDict where
  strategy_type : Option String
  target_protocol : Option String
  actions : Option (List ActionDict)
  expected_outcome : Option Unit
deriving DecidableEq, Repr

/-! ## RiskScorer — src/agent/risk_model.py and src/ml-risk -/

/-- The static protocol-name → address table of
`RiskModel._extract_protocol_address` (risk_model.py lines 71-81). -/
def protocolAddresses : List (String × String) :=
  [("aave", "0x7fc66500c84a76ad7e9c93437bfc5ac33e2ddae9"),
   ("aave v3", "0x7fc66500c84a76ad7e9c93437bfc5ac33e2ddae9"),
   ("compound", "0xc00e94cb662c3520282e6f5717214004a7f26888"),
   ("compound v3", "0xc00e94cb662c3520282e6f5717214004a7f26888"),
   ("uniswap", "0x1f9840a85d5af5bf1d1762f925bdaddc4201f984"),
   ("curve", "0xd533a949740bb3306d119cc777fa900ba034cd52"),
   ("usdc", "0xa0b86991c6218b36c1d19d4a2e9eb0ce3606eb48"),
   ("usdt", "0xdac17f958d2ee523a2206206994597c13d831ec7"),
   ("weth", "0xc02aaa39b223fe8d0a0e5c4f27ead9083c756cc2")]

def hexMarker : String := "0x"

/-- Python `s.startswith(p)` as a structural prefix test on the
character lists (evaluates in the kernel, unlike `String.startsWith`). -/
def pyStartsWith (s p : String) : Bool :=
  List.isPrefixOf p.toList s.toList

/-- Python `str.lower()`, character-wise (the protocol names involved
are ASCII, where this agrees with Python). -/
def pyLower (s : String) : String :=
  String.mk (s.toList.map Char.toLower)

def contractKey : String := "contract"

def protocolKey : String := "protocol"

/-- The action-parameter scan of `_extract_protocol_address`
(risk_model.py lines 88-95): first action whose parameters hold a
`contract` key yields that value, else a `protocol` key yields that
value; otherwise continue. -/
def scanActionsForAddress : List ActionDict → String
  | [] => ""
  | a :: rest =>
    match a.parameters with
    | none => scanActionsForAddress rest
    | some ps =>
      match ps.lookup contractKey with
      | some v => v
      | none =>
        match ps.lookup protocolKey with
        | some v => v
        | none => scanActionsForAddress rest

/-- Embeds `RiskModel._extract_protocol_address` (risk_model.py lines 52-97):
a `target_protocol` that is a raw 0x string is returned as is; a known
protocol name is mapped through `protocolAddresses` (lower-cased);
otherwise the actions are scanned; otherwise the empty string. -/
def extractProtocolAddress (s : StrategyDict) : String :=
  let fromTarget : Option String :=
    match s.target_protocol with
    | none => none
    | some p =>
      if pyStartsWith p hexMarker then some p
      else protocolAddresses.lookup (pyLower p)
  match fromTarget with
  | some addr => addr
  | none =>
    match s.actions with
    | none => ""
    | some acts => scanActionsForAddress acts

/-- Embeds `RiskModel._validate_strategy_format` (risk_model.py lines 134-137):
all four top-level keys must be present. -/
def validateStrategyFormat (s : StrategyDict) : Bool :=
  s.strategy_type.isSome && s.target_protocol.isSome &&
    s.actions.isSome && s.expected_outcome.isSome

/-- Oracle for `RiskAssessmentAPI.assess_strategy_risk`: `none` models
`self.risk_api is None` (model failed to load); `some f` models a live
API whose call may raise (`Except.error`). -/
def RiskApi : Type := Option (String → Except String ℚ)

/-- The body of `RiskModel.score_strategy`'s `try` block
(risk_model.py lines 109-128), with `throw` standing for a raised
exception: invalid format raises `ValueError`; an empty address
resolution returns 0.5; an unavailable API returns 0.5; otherwise the
API call's outcome (which may itself raise) is the result. -/
def scoreStrategyBody (api : RiskApi) (s : StrategyDict) : Except String ℚ :=
  if ¬ validateStrategyFormat s then
    Except.error ("Invalid strategy format")
  else
    let protocolAddress := extractProtocolAddress s
    if protocolAddress = "" then
      Except.ok (1/2)
    else
      match api with
      | none => Except.ok (1/2)
      | some f => f protocolAddress

/-- Embeds `RiskModel.score_strategy` (risk_model.py lines 99-132): the whole
body sits in `try/except`, any raised error yields the moderate-risk
default 0.5. -/
def scoreStrategy (api : RiskApi) (s : StrategyDict) : ℚ :=
  match scoreStrategyBody api s with
  | Except.ok r => r
  | Except.error _ => 1/2

/-- Embeds `RiskModel.is_strategy_safe` (risk_model.py lines 139-151),
default threshold 0.5. -/
def isStrategySafe (api : RiskApi) (s : StrategyDict) (threshold : ℚ) : Bool :=
  decide (scoreStrategy api s < threshold)

/-- Risk score derivation of `DeFiAnomalyDetector.assess_protocol_risk`
(anomaly_risk_model.py line 205): `max(0, min(1, (0.5 - anomaly_score) / 1.0))`. -/
def riskScoreOfAnomaly (anomalyScore : ℚ) : ℚ :=
  max 0 (min 1 ((1/2 - anomalyScore) / 1))

/-- Embeds `DeFiAnomalyDetector._categorize_risk`
(anomaly_risk_model.py lines 216-223). -/
def categorizeRisk (riskScore : ℚ) : String :=
  if riskScore < 3/10 then ("LOW")
  else if riskScore < 7/10 then ("MEDIUM")
  else ("HIGH")

/-- The assessment record built by `assess_protocol_risk` on its
success path (anomaly_risk_model.py lines 207-214). -/
structure RiskAssessment where
  contract : String
  risk_score : ℚ
  is_anomaly : Bool
  anomaly_score : ℚ
  risk_level : String
deriving DecidableEq, Repr

/-- Result of `assess_protocol_risk`: the error dict of line 187
(`{"error": ..., "risk_score": 1.0}`) or a full assessment. -/
inductive AssessOut where
  | fetchError (msg : String) (risk_score : ℚ)
  | assessment (ra : RiskAssessment)
deriving DecidableEq, Repr

/-- Embeds `DeFiAnomalyDetector.assess_protocol_risk`
(anomaly_risk_model.py lines 179-214).  `trained` models
`self.is_trained`; `modelOut` is the oracle for feature extraction plus
the fitted scaler/isolation forest: `none` models
`process_protocol_data` returning no features, `some (a, isAnom)` the
model's decision-function value and anomaly flag.  An untrained model
raises (`Except.error`). -/
def assessProtocolRisk (trained : Bool) (modelOut : Option (ℚ × Bool))
    (contractAddress : String) : Except String AssessOut :=
  if ¬ trained then
    Except.error ("Model not trained. Call train_on_baseline() first.")
  else
    match modelOut with
    | none => Except.ok (AssessOut.fetchError ("Could not fetch data") 1)
    | some (anomalyScore, isAnomaly) =>
      let riskScore := riskScoreOfAnomaly anomalyScore
      Except.ok (AssessOut.assessment
        { contract := contractAddress
          risk_score := riskScore
          is_anomaly := isAnomaly
          anomaly_score := anomalyScore
          risk_level := categorizeRisk riskScore })

/-! ## ExecutionEngine — src/execution/strategy_executor_robust.py -/

/-- Outcome of one invocation of `_execute_action` on an action:
it returns `True`, returns `False`, or raises. -/
inductive AttemptOutcome where
  | success
  | failure
  | raised
deriving DecidableEq, Repr

/-- Embeds `RobustStrategyExecutor._validate_action`
(strategy_executor_robust.py lines 663-670): both keys present. -/
def validateAction (a : ActionDict) : Bool :=
  a.action_type.isSome && a.parameters.isSome

/-- Embeds `RobustStrategyExecutor._validate_strategy`
(strategy_executor_robust.py lines 650-661): the three top-level keys
present, and every action valid (the Python loop returns `False` at the
first invalid action; `List.all` short-circuits identically). -/
def validateStrategy (s : StrategyDict) : Bool :=
  match s.strategy_type, s.target_protocol, s.actions with
  | some _, some _, some acts => acts.all validateAction
  | _, _, _ => false

/-- The retry loop of `RobustStrategyExecutor._execute_action_with_retry`
(strategy_executor_robust.py lines 274-291), over a handler oracle
giving the outcome of each 0-based attempt.  `fuel` is the number of
remaining loop iterations (initially `max_retries`); `attempt` the
current 0-based attempt index.  Returns (overall success, number of
handler invocations, the `time.sleep` delays in seconds between
consecutive attempts — the code sleeps `5 * (attempt + 1)` after a
non-final failed or raising attempt). -/
def retryLoop (handler : Nat → AttemptOutcome) : Nat → Nat → Bool × Nat × List Nat
  | 0, _ => (false, 0, [])
  | 1, attempt =>
    match handler attempt with
    | AttemptOutcome.success => (true, 1, [])
    | _ => (false, 1, [])
  | fuel + 2, attempt =>
    match handler attempt with
    | AttemptOutcome.success => (true, 1, [])
    | _ =>
      let r := retryLoop handler (fuel + 1) (attempt + 1)
      (r.1, r.2.1 + 1, 5 * (attempt + 1) :: r.2.2)

/-- Embeds `_execute_action_with_retry` entered at attempt 0 with
`max_retries` iterations available. -/
def executeActionWithRetry (handler : Nat → AttemptOutcome) (maxRetries : Nat) :
    Bool × Nat × List Nat :=
  retryLoop handler maxRetries 0

/-- Oracle for `_execute_action`: outcome of running a given action at
a given 0-based attempt number (dispatch, transaction build/sign/submit
and receipt wait are chain side effects external to the embedding). -/
def ExecOracle : Type := ActionDict → Nat → AttemptOutcome

/-- The per-action loop of `RobustStrategyExecutor.execute`
(strategy_executor_robust.py lines 254-268): actions run sequentially;
the first action whose retry wrapper fails aborts with `False`.
Second component counts handler invocations (each invocation is the
only place a transaction can be submitted). -/
def runActions (orc : ExecOracle) (maxRetries : Nat) : List ActionDict → Bool × Nat
  | [] => (true, 0)
  | a :: rest =>
    let r := executeActionWithRetry (orc a) maxRetries
    if r.1 then
      let rr := runActions orc maxRetries rest
      (rr.1, r.2.1 + rr.2)
    else (false, r.2.1)

/-- Embeds `RobustStrategyExecutor.execute`
(strategy_executor_robust.py lines 237-272): an invalid strategy raises
`ValueError`, caught by the surrounding `try/except` which returns
`False` before any action is dispatched. -/
def executeStrategy (orc : ExecOracle) (maxRetries : Nat) (s : StrategyDict) :
    Bool × Nat :=
  if validateStrategy s then runActions orc maxRetries (s.actions.getD [])
  else (false, 0)

/-- Embeds `RobustStrategyExecutor._get_optimal_gas_price`
(strategy_executor_robust.py lines 619-632): `none` models
`w3.eth.gas_price` raising (the except path returns `min_gas_price`);
otherwise the queried price is raised to `min_gas_price` then capped at
`max_gas_price`, in that order. -/
def getOptimalGasPrice (gasQuery : Option ℕ) (minGasPrice maxGasPrice : ℕ) : ℕ :=
  match gasQuery with
  | none => minGasPrice
  | some g => min (max g minGasPrice) maxGasPrice

/-! ## VaultRegistry — src/vault_manager.py -/

/-- Chain RPC oracle for the vault manager's read calls.  `none`
models the call raising (web3 exception); `some` the returned value.
`codeAt` returns the deployed bytecode (a byte list). -/
structure ChainView where
  codeAt : String → Option (List ℕ)
  nameOf : String → Option String
  symbolOf : String → Option String
  totalSupplyOf : String → Option ℕ
  balanceOf : String → String → Option ℕ

/-- The keyword list of `validate_royalty_vault`
(vault_manager.py lines 93-95). -/
def royaltyKeywords : List String := ["royalty", "vault", "ip", "story"]

/-- Python `needle in s` substring test on character lists: the needle
is a prefix of some suffix. -/
def containsSub : List Char → List Char → Bool
  | [], needle => needle.isEmpty
  | a :: rest, needle => List.isPrefixOf needle (a :: rest) || containsSub rest needle

/-- Python `needle in s` on strings. -/
def containsSubstr (s needle : String) : Bool :=
  containsSub s.toList needle.toList

/-- Embeds `vault_info` dict built by `validate_royalty_vault`
(vault_manager.py lines 97-105). -/
structure VaultInfo where
  name : String
  symbol : String
  total_supply : ℕ
  is_likely_royalty : Bool
deriving DecidableEq, Repr

/-- Embeds `VaultConnectionManager.validate_royalty_vault`
(vault_manager.py lines 61-118): a raised `get_code`, empty bytecode,
or a failing ERC20 read all yield an invalid result; otherwise the
vault info with the heuristic royalty-name flag. -/
def validateRoyaltyVault (c : ChainView) (vaultTokenAddress : String) :
    Bool × Option VaultInfo :=
  match c.codeAt vaultTokenAddress with
  | none => (false, none)
  | some code =>
    if code = [] then (false, none)
    else
      match c.nameOf vaultTokenAddress, c.symbolOf vaultTokenAddress,
          c.totalSupplyOf vaultTokenAddress with
      | some nm, some sym, some ts =>
        (true, some { name := nm, symbol := sym, total_supply := ts
                      is_likely_royalty :=
                        royaltyKeywords.any (fun kw => containsSubstr (pyLower nm) kw) })
      | _, _, _ => (false, none)

/-- Ownership dict of `check_user_ownership`
(vault_manager.py lines 120-159).  On the except path the code returns
`{owns_tokens: False, balance: 0, error}`; the remaining fields are
never read on that path and are modelled as 0. -/
structure OwnershipResult where
  owns_tokens : Bool
  balance : ℕ
  total_supply : ℕ
  ownership_percentage : ℚ
deriving DecidableEq, Repr

/-- Embeds `VaultConnectionManager.check_user_ownership`
(vault_manager.py lines 120-159): `owns_tokens` is `balance > 0`;
`ownership_percentage = balance / total_supply * 100` when the supply
is positive, else 0; a raising RPC call yields the zero-balance error
result. -/
def checkUserOwnership (c : ChainView) (vaultTokenAddress userAddress : String) :
    OwnershipResult :=
  match c.balanceOf vaultTokenAddress userAddress,
      c.totalSupplyOf vaultTokenAddress with
  | some bal, some ts =>
    { owns_tokens := decide (0 < bal), balance := bal, total_supply := ts
      ownership_percentage := if 0 < ts then (bal : ℚ) / (ts : ℚ) * 100 else 0 }
  | _, _ =>
    { owns_tokens := false, balance := 0, total_supply := 0
      ownership_percentage := 0 }

/-- A connection record as built by `connect_vault`
(vault_manager.py lines 193-203).  `last_optimized` is `none` for
Python `None`; it is set to a wall-clock timestamp by
`update_vault_status`. -/
structure VaultConnection where
  vault_address : String
  user_address : String
  connected_at : ℕ
  user_balance : ℕ
  ownership_percentage : ℚ
  vault_info : Option VaultInfo
  optimization_enabled : Bool
  last_optimized : Option ℕ
deriving DecidableEq, Repr

/-- Embeds `self.connected_vaults`: user address → list of that user's
connections, in insertion order (a Python dict keyed by user). -/
abbrev Registry : Type := List (String × List VaultConnection)

/-- The upsert of `connect_vault` steps 3-4
(vault_manager.py lines 205-220): create the user's entry when absent,
replace in place an existing connection for the same vault, else
append. -/
def upsertConnection (reg : Registry) (userAddress : String)
    (conn : VaultConnection) : Registry :=
  match reg.lookup userAddress with
  | none => reg ++ [(userAddress, [conn])]
  | some lst =>
    let newList :=
      if lst.any (fun v => v.vault_address = conn.vault_address) then
        lst.map (fun v => if v.vault_address = conn.vault_address then conn else v)
      else lst ++ [conn]
    reg.map (fun p => if p.1 = userAddress then (p.1, newList) else p)

/-- Embeds `VaultConnectionManager.connect_vault`
(vault_manager.py lines 161-232): validate the vault, check ownership,
then upsert the connection record.  Returns the `success` flag and the
updated registry (unchanged on every failure path). -/
def connectVault (c : ChainView) (now : ℕ) (reg : Registry)
    (vaultTokenAddress userAddress : String) : Bool × Registry :=
  let validation := validateRoyaltyVault c vaultTokenAddress
  if ¬ validation.1 then (false, reg)
  else
    let ownership := checkUserOwnership c vaultTokenAddress userAddress
    if ¬ ownership.owns_tokens then (false, reg)
    else
      let conn : VaultConnection :=
        { vault_address := vaultTokenAddress
          user_address := userAddress
          connected_at := now
          user_balance := ownership.balance
          ownership_percentage := ownership.ownership_percentage
          vault_info := validation.2
          optimization_enabled := true
          last_optimized := none }
      (true, upsertConnection reg userAddress conn)

/-- Embeds `VaultConnectionManager.get_all_connected_vaults`
(vault_manager.py lines 289-299): the user lists concatenated in
dict-insertion order. -/
def getAllConnectedVaults (reg : Registry) : List VaultConnection :=
  (reg.map Prod.snd).flatten

/-- Python truthiness of the `last_optimized` value: `None` and the
timestamp `0` are falsy, any other number truthy. -/
def truthyTimestamp : Option ℕ → Bool
  | none => false
  | some t => decide (t ≠ 0)

/-- The per-vault keep condition of `get_optimization_candidates`
(vault_manager.py lines 342-352): skip when optimization is disabled,
or when `last_optimized` is truthy and less than 3600 seconds have
elapsed.  (With `ℕ` truncated subtraction a `last_optimized` in the
future gives elapsed 0 < 3600 and is skipped, as in Python where the
negative difference is below 3600.) -/
def isOptimizationCandidate (currentTime : ℕ) (v : VaultConnection) : Bool :=
  v.optimization_enabled &&
    ! (truthyTimestamp v.last_optimized &&
        decide (currentTime - v.last_optimized.getD 0 < 3600))

/-- Embeds `VaultConnectionManager.get_optimization_candidates`
(vault_manager.py lines 332-354). -/
def getOptimizationCandidates (currentTime : ℕ) (reg : Registry) :
    List VaultConnection :=
  (getAllConnectedVaults reg).filter (isOptimizationCandidate currentTime)

/-! ## OrchestrationLoop — src/main.py, `ComposableYieldOptimizer.optimize_vault` -/

/-- The collaborators `optimize_vault` consults in one cycle, as
oracles.  `vaultBalance` models `strategy_executor.get_vault_balance()`
(that method catches its own errors and returns the empty dict,
modelled `none`; `some b` gives the dict's `balance_usdc`).  `bestApy`
is `analyze_lending_pool_performance()['best_apy']` (that method
catches its own errors and falls back to the configured threshold).
`strategy` models `generate_optimization_strategy` (returns `None`
on failure, modelled `none`).  `execResult` is the boolean outcome of
`strategy_executor.execute`. -/
structure OptimizeEnv where
  vaultBalance : Option ℚ
  bestApy : ℚ
  strategy : Option StrategyDict
  api : RiskApi
  execResult : StrategyDict → Bool
  minBalanceThreshold : ℚ
  minYieldThreshold : ℚ

/-- Embeds `ComposableYieldOptimizer.optimize_vault` (main.py lines 301-365).
Returns the boolean result and the number of `strategy_executor.execute`
calls made (0 or 1).  An empty or sub-threshold balance returns `True`
(line 314-316); a sub-threshold best yield returns `True`
(lines 322-324); a missing strategy returns `False` (lines 329-331);
with a strategy, execution runs when `is_safe or risk_score < 0.6` and
the cycle's result is the executor's result, else the strategy is
rejected with `False` (lines 340-361). -/
def optimizeVault (env : OptimizeEnv) : Bool × ℕ :=
  match env.vaultBalance with
  | none => (true, 0)
  | some balanceUsdc =>
    if balanceUsdc < env.minBalanceThreshold then (true, 0)
    else if env.bestApy < env.minYieldThreshold then (true, 0)
    else
      match env.strategy with
      | none => (false, 0)
      | some s =>
        let riskScore := scoreStrategy env.api s
        let isSafe := isStrategySafe env.api s (1/2)
        if isSafe || decide (riskScore < 3/5) then (env.execResult s, 1)
        else (false, 0)

/-! ## Helper lemmas -/

theorem categorizeRisk_low_iff (r : ℚ) : categorizeRisk r = "LOW" ↔ r < 3/10 := by
  unfold categorizeRisk
  split_ifs with h1 h2
  · exact iff_of_true rfl h1
  · exact iff_of_false (by decide) h1
  · exact iff_of_false (by decide) h1

theorem categorizeRisk_medium_iff (r : ℚ) :
    categorizeRisk r = "MEDIUM" ↔ 3/10 ≤ r ∧ r < 7/10 := by
  unfold categorizeRisk
  split_ifs with h1 h2
  · exact iff_of_false (by decide) (fun hc => absurd h1 (not_lt.mpr hc.1))
  · exact iff_of_true rfl ⟨not_lt.mp h1, h2⟩
  · exact iff_of_false (by decide) (fun hc => h2 hc.2)

theorem categorizeRisk_high_iff (r : ℚ) :
    categorizeRisk r = "HIGH" ↔ 7/10 ≤ r := by
  unfold categorizeRisk
  split_ifs with h1 h2
  · exact iff_of_false (by decide) (by intro hc; linarith)
  · exact iff_of_false (by decide) (by intro hc; linarith)
  · exact iff_of_true rfl (not_lt.mp h2)

theorem scanActionsForAddress_eq_empty (acts : List ActionDict)
    (h : ∀ a ∈ acts, ∀ ps, a.parameters = some ps →
      ps.lookup contractKey = none ∧ ps.lookup protocolKey = none) :
    scanActionsForAddress acts = "" := by
  induction acts with
  | nil => rfl
  | cons a rest ih =>
    have hr := ih (fun b hb ps hps => h b (List.mem_cons_of_mem a hb) ps hps)
    cases hpa : a.parameters with
    | none => simpa [scanActionsForAddress, hpa] using hr
    | some ps =>
      obtain ⟨h1, h2⟩ := h a (List.mem_cons_self a rest) ps hpa
      simp [scanActionsForAddress, hpa, h1, h2, hr]

theorem validateStrategy_eq_true_iff (s : StrategyDict) :
    validateStrategy s = true ↔
      s.strategy_type.isSome = true ∧ s.target_protocol.isSome = true ∧
        ∃ acts, s.actions = some acts ∧ ∀ a ∈ acts, validateAction a = true := by
  unfold validateStrategy
  cases s.strategy_type <;> cases s.target_protocol <;> cases s.actions <;>
    simp [List.all_eq_true]

/-! ## Claim theorems: risk scorer -/

/-- C3: any error arising during feature extraction or risk scoring
(a raising path of the scoring body, including an invalid format, a
raising API call, or anything the model layers propagate) is caught
inside `scoreStrategy`, which returns the fixed moderate-risk default
0.5; being a total function, `scoreStrategy` never raises to its
caller. -/
theorem C3_score_strategy_error_fallback (api : RiskApi) (s : StrategyDict)
    (msg : String) (h : scoreStrategyBody api s = Except.error msg) :
    scoreStrategy api s = 1/2 := by
  simp [scoreStrategy, h]

def explodingApi : RiskApi := some (fun _ => Except.error ("feature extraction failed"))

def aaveStrategy : StrategyDict :=
  { strategy_type := some "yield_optimization"
    target_protocol := some "aave"
    actions := some []
    expected_outcome := some () }

/-- Witness for C3 at a concrete raising API and resolvable strategy. -/
theorem C3_score_strategy_error_fallback_witness :
    scoreStrategyBody explodingApi aaveStrategy =
      Except.error ("feature extraction failed") ∧
    scoreStrategy explodingApi aaveStrategy = 1/2 :=
  ⟨rfl, C3_score_strategy_error_fallback explodingApi aaveStrategy
    ("feature extraction failed") rfl⟩

/-- C8: a strategy whose `target_protocol` is neither a raw 0x-prefixed
address nor a name in the static protocol table, and none of whose
actions' parameter mappings contain a `contract` or `protocol` field,
scores exactly 0.5 under any risk API. -/
theorem C8_unresolvable_protocol_scores_half (api : RiskApi) (s : StrategyDict)
    (p : String) (hp : s.target_protocol = some p)
    (hhex : pyStartsWith p hexMarker = false)
    (htab : protocolAddresses.lookup (pyLower p) = none)
    (hacts : ∀ a ∈ s.actions.getD [], ∀ ps, a.parameters = some ps →
      ps.lookup contractKey = none ∧ ps.lookup protocolKey = none) :
    scoreStrategy api s = 1/2 := by
  have hext : extractProtocolAddress s = "" := by
    unfold extractProtocolAddress
    rw [hp]
    simp only [hhex, Bool.false_eq_true, if_false, htab]
    cases hac : s.actions with
    | none => rfl
    | some acts =>
      exact scanActionsForAddress_eq_empty acts (by simpa [hac] using hacts)
  by_cases hv : validateStrategyFormat s
  · simp [scoreStrategy, scoreStrategyBody, hv, hext]
  · simp [scoreStrategy, scoreStrategyBody, hv]

def unknownProtocolStrategy : StrategyDict :=
  { strategy_type := some "yield_optimization"
    target_protocol := some "mystery_protocol"
    actions := some [{ action_type := some "deploy_to_strategy"
                       parameters := some [("amount", "800")] }]
    expected_outcome := some () }

def lowRiskApi : RiskApi := some (fun _ => Except.ok (1/10))

/-- Witness for C8 at a concrete unresolvable strategy and a live API
that would report low risk were it consulted. -/
theorem C8_unresolvable_protocol_scores_half_witness :
    unknownProtocolStrategy.target_protocol = some "mystery_protocol" ∧
    pyStartsWith ("mystery_protocol") hexMarker = false ∧
    protocolAddresses.lookup (pyLower ("mystery_protocol")) = none ∧
    scoreStrategy lowRiskApi unknownProtocolStrategy = 1/2 :=
  ⟨rfl, rfl, rfl,
    C8_unresolvable_protocol_scores_half lowRiskApi unknownProtocolStrategy
      ("mystery_protocol") rfl rfl rfl
      (by
        intro a ha ps hps
        simp only [unknownProtocolStrategy, Option.getD_some, List.mem_singleton] at ha
        subst ha
        obtain rfl : [("amount", "800")] = ps := Option.some_inj.mp hps
        exact ⟨rfl, rfl⟩)⟩

/-- C9: on the trained model's success path, the derived risk score is
exactly clamp(0.5 - anomaly_score, 0, 1), and the qualitative level is
LOW below 0.3, MEDIUM below 0.7, and HIGH otherwise. -/
theorem C9_anomaly_risk_derivation (a : ℚ) (isAnom : Bool) (addr : String) :
    ∃ ra : RiskAssessment,
      assessProtocolRisk true (some (a, isAnom)) addr =
        Except.ok (AssessOut.assessment ra) ∧
      ra.risk_score = max 0 (min 1 (1/2 - a)) ∧
      (ra.risk_level = "LOW" ↔ ra.risk_score < 3/10) ∧
      (ra.risk_level = "MEDIUM" ↔ 3/10 ≤ ra.risk_score ∧ ra.risk_score < 7/10) ∧
      (ra.risk_level = "HIGH" ↔ 7/10 ≤ ra.risk_score) := by
  refine ⟨_, rfl, ?_, ?_, ?_, ?_⟩
  · simp [riskScoreOfAnomaly]
  · exact categorizeRisk_low_iff _
  · exact categorizeRisk_medium_iff _
  · exact categorizeRisk_high_iff _

/-- C10: a strategy with `strategy_type`, `target_protocol` and valid
`actions` but no `expected_outcome` is scored at the fail-safe default
0.5 by the risk model (whatever the API would say), yet passes the
execution engine's structural validation. -/
theorem C10_risk_format_stricter_than_executor (api : RiskApi)
    (s : StrategyDict) (acts : List ActionDict)
    (h1 : s.strategy_type.isSome = true)
    (h2 : s.target_protocol.isSome = true)
    (h3 : s.actions = some acts)
    (h4 : s.expected_outcome = none)
    (h5 : acts.all validateAction = true) :
    scoreStrategy api s = 1/2 ∧ validateStrategy s = true := by
  constructor
  · have hv : validateStrategyFormat s = false := by
      simp [validateStrategyFormat, h4]
    simp [scoreStrategy, scoreStrategyBody, hv]
  · rw [validateStrategy_eq_true_iff]
    exact ⟨h1, h2, acts, h3, List.all_eq_true.mp h5⟩

def noOutcomeStrategy : StrategyDict :=
  { strategy_type := some "vault_yield_optimization"
    target_protocol := some "aave"
    actions := some [{ action_type := some "deploy_to_strategy"
                       parameters := some [("amount", "800")] }]
    expected_outcome := none }

/-- Witness for C10: the concrete strategy resolves to the aave address
and the API would report 0.1, yet the score is the 0.5 default, and the
executor's validation accepts the strategy. -/
theorem C10_risk_format_stricter_than_executor_witness :
    noOutcomeStrategy.expected_outcome = none ∧
    extractProtocolAddress noOutcomeStrategy ≠ "" ∧
    scoreStrategy lowRiskApi noOutcomeStrategy = 1/2 ∧
    validateStrategy noOutcomeStrategy = true :=
  ⟨rfl, by decide,
    (C10_risk_format_stricter_than_executor lowRiskApi noOutcomeStrategy _
      rfl rfl rfl rfl rfl).1,
    (C10_risk_format_stricter_than_executor lowRiskApi noOutcomeStrategy _
      rfl rfl rfl rfl rfl).2⟩

/-! ## Claim theorems: execution engine -/

/-- C2: a strategy missing any required top-level field, or containing
an action missing `action_type` or `parameters`, makes `execute` return
failure with zero handler invocations (hence zero transaction
submissions or other network side effects). -/
theorem C2_invalid_strategy_fails_without_side_effects
    (orc : ExecOracle) (maxRetries : ℕ) (s : StrategyDict)
    (h : s.strategy_type = none ∨ s.target_protocol = none ∨ s.actions = none ∨
      ∃ a ∈ s.actions.getD [], a.action_type = none ∨ a.parameters = none) :
    executeStrategy orc maxRetries s = (false, 0) := by
  have hv : validateStrategy s = false := by
    rw [Bool.eq_false_iff]
    intro htrue
    rw [validateStrategy_eq_true_iff] at htrue
    obtain ⟨h1, h2, acts, hacts, hall⟩ := htrue
    rcases h with h | h | h | ⟨a, ha, hbad⟩
    · simp [h] at h1
    · simp [h] at h2
    · simp [h] at hacts
    · have hval := hall a (by simpa [hacts] using ha)
      rcases hbad with hb | hb <;> simp [validateAction, hb] at hval
  simp [executeStrategy, hv]

def missingFieldStrategy : StrategyDict :=
  { strategy_type := some "yield_optimization"
    target_protocol := none
    actions := some []
    expected_outcome := some () }

def alwaysSucceedOracle : ExecOracle := fun _ _ => AttemptOutcome.success

/-- Witness for C2 at a strategy missing `target_protocol`. -/
theorem C2_invalid_strategy_fails_without_side_effects_witness :
    missingFieldStrategy.target_protocol = none ∧
    executeStrategy alwaysSucceedOracle 3 missingFieldStrategy = (false, 0) :=
  ⟨rfl, C2_invalid_strategy_fails_without_side_effects alwaysSucceedOracle 3
    missingFieldStrategy (Or.inr (Or.inl rfl))⟩

theorem delays_cons_shift (attempt k : ℕ) :
    5 * (attempt + 1) :: (List.range k).map (fun i => 5 * (attempt + 1 + 1 + i)) =
      (List.range (k + 1)).map (fun i => 5 * (attempt + 1 + i)) := by
  rw [List.range_succ_eq_map, List.map_cons, List.map_map]
  congr 1
  apply List.map_congr_left
  intro i _
  simp only [Function.comp_apply, Nat.succ_eq_add_one]
  omega

theorem retryLoop_first_success (handler : ℕ → AttemptOutcome) :
    ∀ (k fuel attempt : ℕ), k < fuel →
      (∀ i, i < k → handler (attempt + i) ≠ AttemptOutcome.success) →
      handler (attempt + k) = AttemptOutcome.success →
      retryLoop handler fuel attempt =
        (true, k + 1, (List.range k).map (fun i => 5 * (attempt + 1 + i))) := by
  intro k
  induction k with
  | zero =>
    intro fuel attempt hfuel _ hsucc
    have h0 : handler attempt = AttemptOutcome.success := by simpa using hsucc
    cases fuel with
    | zero => omega
    | succ f =>
      cases f with
      | zero => simp [retryLoop, h0]
      | succ f' => simp [retryLoop, h0]
  | succ k ih =>
    intro fuel attempt hfuel hfail hsucc
    cases fuel with
    | zero => omega
    | succ f =>
      cases f with
      | zero => omega
      | succ f' =>
        have h0 : handler attempt ≠ AttemptOutcome.success := by
          simpa using hfail 0 (Nat.succ_pos k)
        have hfail' : ∀ i, i < k → handler (attempt + 1 + i) ≠ AttemptOutcome.success := by
          intro i hi
          have hcur := hfail (i + 1) (by omega)
          rw [show attempt + (i + 1) = attempt + 1 + i from by omega] at hcur
          exact hcur
        have hsucc' : handler (attempt + 1 + k) = AttemptOutcome.success := by
          rw [show attempt + 1 + k = attempt + (k + 1) from by omega]
          exact hsucc
        have hrec := ih (f' + 1) (attempt + 1) (by omega) hfail' hsucc'
        cases hha : handler attempt with
        | success => exact absurd hha h0
        | failure => simp [retryLoop, hha, hrec, delays_cons_shift]
        | raised => simp [retryLoop, hha, hrec, delays_cons_shift]

/-- C4: if an action's handler fails (returns failure or raises) on
exactly the first k attempts and succeeds on attempt k+1, with
k < max_retries, the retry wrapper returns overall success, the handler
is invoked exactly k+1 times, and the delays between consecutive
attempts are 5 seconds times the (1-based) attempt number. -/
theorem C4_retry_succeeds_after_k_failures (handler : ℕ → AttemptOutcome)
    (k maxRetries : ℕ) (hk : k < maxRetries)
    (hfail : ∀ i, i < k → handler i ≠ AttemptOutcome.success)
    (hsucc : handler k = AttemptOutcome.success) :
    executeActionWithRetry handler maxRetries =
      (true, k + 1, (List.range k).map (fun i => 5 * (i + 1))) := by
  have h := retryLoop_first_success handler k maxRetries 0 hk
    (by simpa using hfail) (by simpa using hsucc)
  have hmap : (List.range k).map (fun i => 5 * (0 + 1 + i)) =
      (List.range k).map (fun i => 5 * (i + 1)) :=
    List.map_congr_left (fun i _ => by omega)
  rw [executeActionWithRetry, h, hmap]

def flakyHandler : ℕ → AttemptOutcome := fun i =>
  if i < 2 then AttemptOutcome.failure else AttemptOutcome.success

/-- Witness for C4: a handler failing twice then succeeding under the
default max_retries of 3 yields success after 3 invocations with delays
5 s and 10 s. -/
theorem C4_retry_succeeds_after_k_failures_witness :
    2 < 3 ∧ executeActionWithRetry flakyHandler 3 = (true, 3, [5, 10]) := by
  refine ⟨by decide, ?_⟩
  rw [C4_retry_succeeds_after_k_failures flakyHandler 2 3 (by decide)
    (by decide) (by decide)]
  decide

/-- C5 counterexample: with min_gas_price 10 above max_gas_price 5 and
queried price 0, the code builds with gas price 5 (it raises to the
minimum first, then caps at the maximum), while the claimed formula
max(min_gas_price, min(g, max_gas_price)) gives 10. -/
theorem C5_gas_clamp_counterexample :
    getOptimalGasPrice (some 0) 10 5 ≠ max 10 (min 0 5) := by decide

/-- C5 (amended): provided min_gas_price ≤ max_gas_price, the gas price
used for a built transaction equals max(min_gas_price, min(g,
max_gas_price)) for every queried network gas price g. -/
theorem C5_gas_clamp (g minGasPrice maxGasPrice : ℕ)
    (h : minGasPrice ≤ maxGasPrice) :
    getOptimalGasPrice (some g) minGasPrice maxGasPrice =
      max minGasPrice (min g maxGasPrice) := by
  simp only [getOptimalGasPrice, Nat.min_def, Nat.max_def]
  split_ifs <;> omega

/-- Witness for C5 at the configured defaults (1 gwei, 100 gwei) and a
queried price of 50 gwei. -/
theorem C5_gas_clamp_witness :
    (1000000000 : ℕ) ≤ 100000000000 ∧
    getOptimalGasPrice (some 50000000000) 1000000000 100000000000 =
      max 1000000000 (min 50000000000 100000000000) :=
  ⟨by decide, C5_gas_clamp 50000000000 1000000000 100000000000 (by decide)⟩

/-! ## Claim theorems: vault registry -/

/-- C6: when the ownership check reports that the user owns no tokens of
the vault, connect_vault returns success = false and leaves the
registry's connection collection unchanged. -/
theorem C6_no_ownership_no_connect (c : ChainView) (now : ℕ) (reg : Registry)
    (vaultAddr userAddr : String)
    (h : (checkUserOwnership c vaultAddr userAddr).owns_tokens = false) :
    connectVault c now reg vaultAddr userAddr = (false, reg) := by
  unfold connectVault
  by_cases hv : (validateRoyaltyVault c vaultAddr).1
  · simp [hv, h]
  · simp [hv]

def zeroBalanceChain : ChainView :=
  { codeAt := fun _ => some [96, 128]
    nameOf := fun _ => some "Story Royalty Vault"
    symbolOf := fun _ => some "SRV"
    totalSupplyOf := fun _ => some 1000000
    balanceOf := fun _ _ => some 0 }

/-- Witness for C6: a user with zero balance in an otherwise valid
vault cannot connect, and the empty registry stays empty. -/
theorem C6_no_ownership_no_connect_witness :
    (checkUserOwnership zeroBalanceChain ("0xvault") ("0xuser")).owns_tokens
      = false ∧
    connectVault zeroBalanceChain 1700000000 [] ("0xvault") ("0xuser")
      = (false, []) :=
  ⟨rfl, C6_no_ownership_no_connect zeroBalanceChain 1700000000 []
    ("0xvault") ("0xuser") rfl⟩

def staleZeroConn : VaultConnection :=
  { vault_address := "0xvault"
    user_address := "0xuser"
    connected_at := 0
    user_balance := 5
    ownership_percentage := 1
    vault_info := none
    optimization_enabled := true
    last_optimized := some 0 }

/-- C7 counterexample: a connected vault with optimization enabled whose
last_optimized timestamp is set to 0 at current time 1800 (so only 1800
of the 3600 cooldown seconds have elapsed) is nevertheless returned as
an optimization candidate, because Python truthiness treats the
timestamp 0 like an unset one — refuting the claimed exact
characterization. -/
theorem C7_cooldown_counterexample :
    staleZeroConn ∈ getOptimizationCandidates 1800 [(("0xuser"), [staleZeroConn])] ∧
    staleZeroConn.optimization_enabled = true ∧
    ¬ (staleZeroConn.last_optimized = none ∨
        3600 ≤ 1800 - (staleZeroConn.last_optimized.getD 0)) := by
  refine ⟨?_, rfl, ?_⟩ <;> decide

/-- C7 (amended): a connection appears among the optimization candidates
exactly when it is in the connection collection, optimization is
enabled, and last_optimized is unset, or is the (falsy) timestamp 0, or
at least 3600 seconds have elapsed since it; so with a nonzero
last_optimized = now − 1800 it is excluded and with last_optimized =
now − 7200 it is included. -/
theorem C7_cooldown_characterization (currentTime : ℕ) (reg : Registry)
    (v : VaultConnection) :
    v ∈ getOptimizationCandidates currentTime reg ↔
      v ∈ getAllConnectedVaults reg ∧ v.optimization_enabled = true ∧
        (v.last_optimized = none ∨ v.last_optimized = some 0 ∨
          3600 ≤ currentTime - v.last_optimized.getD 0) := by
  unfold getOptimizationCandidates
  rw [List.mem_filter]
  refine and_congr_right fun _ => ?_
  unfold isOptimizationCandidate truthyTimestamp
  cases henab : v.optimization_enabled <;> cases h : v.last_optimized <;>
    simp [henab, h]

/-! ## Claim theorems: orchestration loop -/

def noStrategyEnv : OptimizeEnv :=
  { vaultBalance := some 1000
    bestApy := 6/100
    strategy := none
    api := none
    execResult := fun _ => true
    minBalanceThreshold := 100
    minYieldThreshold := 5/100 }

/-- C1 counterexample: a cycle with ample balance (1000 ≥ threshold 100)
and acceptable yield (6% ≥ 5%) in which strategy generation fails
returns False — not the success the claim asserts for the no-strategy
condition (the risk-rejected branch likewise returns False in the
source). -/
theorem C1_optimize_vault_counterexample :
    (optimizeVault noStrategyEnv).1 = false := by
  unfold optimizeVault noStrategyEnv
  norm_num

/-- C1 (amended): a cycle whose balance fetch comes back empty or below
the minimum balance threshold, or whose best yield is below the minimum
yield threshold, logs and returns True with zero execution attempts;
but a cycle that finds no strategy returns False, and a cycle whose
strategy is rejected on risk (not safe and risk score ≥ 0.6) returns
False — only these and infrastructure errors yield failure. -/
theorem C1_optimize_vault_outcomes (env : OptimizeEnv) :
    (env.vaultBalance = none → optimizeVault env = (true, 0)) ∧
    (∀ b, env.vaultBalance = some b → b < env.minBalanceThreshold →
      optimizeVault env = (true, 0)) ∧
    (∀ b, env.vaultBalance = some b → env.minBalanceThreshold ≤ b →
      env.bestApy < env.minYieldThreshold → optimizeVault env = (true, 0)) ∧
    (∀ b, env.vaultBalance = some b → env.minBalanceThreshold ≤ b →
      env.minYieldThreshold ≤ env.bestApy → env.strategy = none →
      optimizeVault env = (false, 0)) ∧
    (∀ b s, env.vaultBalance = some b → env.minBalanceThreshold ≤ b →
      env.minYieldThreshold ≤ env.bestApy → env.strategy = some s →
      isStrategySafe env.api s (1/2) = false →
      ¬ scoreStrategy env.api s < 3/5 →
      optimizeVault env = (false, 0)) := by
  refine ⟨?_, ?_, ?_, ?_, ?_⟩ <;> unfold optimizeVault
  · intro h
    rw [h]
  · intro b hb hlt
    rw [hb]
    simp [hlt]
  · intro b hb hge hapy
    rw [hb]
    simp [not_lt.mpr hge, hapy]
  · intro b hb hge hyield hs
    rw [hb]
    simp [not_lt.mpr hge, not_lt.mpr hyield, hs]
  · intro b s hb hge hyield hs hsafe hrisk
    rw [hb]
    have hsafe2 : isStrategySafe env.api s (2⁻¹ : ℚ) = false := by
      simpa [one_div] using hsafe
    simp [not_lt.mpr hge, not_lt.mpr hyield, hs, hsafe2, hrisk]

def lowBalanceEnv : OptimizeEnv :=
  { vaultBalance := some 40
    bestApy := 6/100
    strategy := none
    api := none
    execResult := fun _ => true
    minBalanceThreshold := 100
    minYieldThreshold := 5/100 }

/-- Witness for C1 (amended) at the spec's end-to-end scenario: vault
balance 40 USDC against a minimum balance threshold of 100 returns True
with zero execution attempts. -/
theorem C1_optimize_vault_outcomes_witness :
    optimizeVault lowBalanceEnv = (true, 0) :=
  (C1_optimize_vault_outcomes lowBalanceEnv).2.1 40 rfl (by norm_num [lowBalanceEnv])
